import Mathlib

/-!
# Secure Streaming Platform — verification of the relay and key directory

Shallow embedding of the two CORE components of the repository:

* `ws-server.js` — the WebSocket relay.  Its whole behaviour lives in the
  `ws.on("message", ...)` handler: a JSON control dispatch (`metric`,
  `hello`, `chat`) followed by a fall-through raw-frame forwarding loop.
* `SessionKeyServer.java` — the HTTP key directory with the two endpoints
  `/api/session` (create-or-get) and `/api/join` (pure lookup).

Connections are modelled by their relay-visible fields (`ws.sessionId`,
`ws.role`, `readyState === OPEN`) plus an identity `cid` standing for the
object identity of the `ws` object; the handler's observable effects are a
list of `Action`s (sends / closes) together with the updated client set.
-/

namespace SecureStreaming

/-- JS truthiness of an optional string field (`undefined`, `null` and `""`
are falsy). -/
def truthy : Option String → Bool
  | none => false
  | some s => decide (s ≠ "")

/-- `v || null` in JS applied to an optional string field: falsy values
collapse to `null`. -/
def jsOr : Option String → Option String
  | none => none
  | some s => if s = "" then none else some s

/-- A relay connection as `ws-server.js` sees it: the object identity of the
`ws` object (`cid`), the expando fields `ws.sessionId` and `ws.role`, and
whether `readyState === WebSocket.OPEN`. -/
structure Client where
  cid : Nat
  sessionId : Option String := none
  role : Option String := none
  isOpen : Bool := true
deriving DecidableEq, Repr

/-- A parsed JSON envelope: the `type` discriminant plus the fields the relay
reads.  An encrypted frame parses as JSON with no `type` field (`none`). -/
structure JsonMsg where
  type : Option String := none
  sessionId : Option String := none
  role : Option String := none
  text : Option String := none
deriving DecidableEq, Repr

/-- Result of the relay's attempt to `JSON.parse` the inbound data. -/
inductive Inbound
  | json (m : JsonMsg)
  | notJson
deriving DecidableEq, Repr

/-- Observable outputs of the message handler: a `client.send(payload)` to a
given target connection, or closing a connection. -/
inductive Action
  | send (target : Nat) (payload : String)
  | closeConn (target : Nat)
deriving DecidableEq, Repr

/-- `JSON.stringify({ type: "pong" })`. -/
def pongText : String := "\x7b\"type\":\"pong\"\x7d"

/-- The session filter guarding both broadcast loops:
`if (ws.sessionId && client.sessionId && client.sessionId !== ws.sessionId) return;` -/
def sessionSkip (wsSid cSid : Option String) : Bool :=
  truthy wsSid && truthy cSid && decide (cSid ≠ wsSid)

/-- The fall-through branch of the message handler (lines 63–73 of
`ws-server.js`): forward the raw data to every other open connection that
passes the session filter; the client set is left unchanged. -/
def rawForward (clients : List Client) (me : Client) (raw : String) :
    List Client × List Action :=
  (clients,
    (clients.filter (fun c =>
        decide (c.cid ≠ me.cid) && c.isOpen &&
          !(sessionSkip me.sessionId c.sessionId))).map
      (fun c => Action.send c.cid raw))

/-- The relay's `ws.on("message", ...)` handler (lines 16–74 of
`ws-server.js`), as a function of the current client set `clients`, the
sending connection `me`, the parse result `inb` of the data, and the raw
text `raw` of the data.  Returns the updated client set and the emitted
actions:

* `type === "metric"` — reply `pong` to the sender only;
* `type === "hello"` — store `msg.sessionId || null` and `msg.role || null`
  on the sender's connection;
* `type === "chat"` — broadcast the raw text to every open connection
  passing the session filter (sender included);
* anything else (unknown `type`, no `type`, or not JSON at all) — fall
  through to `rawForward`. -/
def handleMessage (clients : List Client) (me : Client) (inb : Inbound)
    (raw : String) : List Client × List Action :=
  match inb with
  | .json m =>
    if m.type = some "metric" then
      (clients, [Action.send me.cid pongText])
    else if m.type = some "hello" then
      (clients.map (fun c =>
        if c.cid = me.cid then
          { c with sessionId := jsOr m.sessionId, role := jsOr m.role }
        else c), [])
    else if m.type = some "chat" then
      (clients,
        (clients.filter (fun c =>
            c.isOpen && !(sessionSkip me.sessionId c.sessionId))).map
          (fun c => Action.send c.cid raw))
    else rawForward clients me raw
  | .notJson => rawForward clients me raw

/-! ## Key directory (`SessionKeyServer.java`) -/

/-- Key material: the bytes of an AES key (`byte[]`). -/
abbrev KeyBytes := List Nat

/-- The `sessionKeys` map (`ConcurrentHashMap<String, byte[]>`), as an
association list from session id to key bytes. -/
abbrev KeyDir := List (String × KeyBytes)

/-- Lookup in the `sessionKeys` map. -/
def findKey (s : String) : KeyDir → Option KeyBytes
  | [] => none
  | (t, k) :: rest => if t = s then some k else findKey s rest

/-- The HTTP request method, as the handlers discriminate it. -/
inductive HttpMethod
  | optionsM
  | postM
  | otherM
deriving DecidableEq, Repr

/-- An HTTP response: the status code and, when the body carries one, the key
bytes returned (`aesKeyB64` decoded). -/
structure KeyResponse where
  status : Nat
  key : Option KeyBytes
deriving DecidableEq, Repr

/-- `SessionKeyServer.handleCreateSession`: CORS preflight → 200; non-POST →
405; missing/empty `sessionId` → 400; otherwise create-or-get through
`sessionKeys.computeIfAbsent(sessionId, generate)` (an atomic step of the
concurrent map, modelled as one sequential step).  `gen` is the key the AES
`KeyGenerator` would produce if this call generates. -/
def handleCreateSession (method : HttpMethod) (sessionId : Option String)
    (keys : KeyDir) (gen : KeyBytes) : KeyResponse × KeyDir :=
  match method with
  | .optionsM => (⟨200, none⟩, keys)
  | .otherM => (⟨405, none⟩, keys)
  | .postM =>
    match sessionId with
    | none => (⟨400, none⟩, keys)
    | some s =>
      if s = "" then (⟨400, none⟩, keys)
      else
        match findKey s keys with
        | some k => (⟨200, some k⟩, keys)
        | none => (⟨200, some gen⟩, (s, gen) :: keys)

/-- `SessionKeyServer.handleJoinSession`: CORS preflight → 200; non-POST →
405; missing/empty `sessionId` → 400; otherwise a pure `sessionKeys.get`:
404 when absent, 200 with the stored key when present. -/
def handleJoinSession (method : HttpMethod) (sessionId : Option String)
    (keys : KeyDir) : KeyResponse × KeyDir :=
  match method with
  | .optionsM => (⟨200, none⟩, keys)
  | .otherM => (⟨405, none⟩, keys)
  | .postM =>
    match sessionId with
    | none => (⟨400, none⟩, keys)
    | some s =>
      if s = "" then (⟨400, none⟩, keys)
      else
        match findKey s keys with
        | none => (⟨404, none⟩, keys)
        | some k => (⟨200, some k⟩, keys)

/-- The HTTP contexts registered in `SessionKeyServer.main`. -/
def registeredContexts : List String := ["/api/session", "/api/join"]

/-! ## Helper lemmas -/

/-- Pointwise-equal boolean predicates filter a list identically. -/
theorem filter_eq_of_forall {α : Type} {p q : α → Bool} (l : List α)
    (h : ∀ a, p a = q a) : l.filter p = l.filter q := by
  induction l with
  | nil => rfl
  | cons a t ih => simp [List.filter_cons, h a, ih]

/-- Pointwise-equal functions map a list identically. -/
theorem map_eq_of_forall {α β : Type} {f g : α → β} (l : List α)
    (h : ∀ a, f a = g a) : l.map f = l.map g := by
  induction l with
  | nil => rfl
  | cons a t ih => simp [List.map_cons, h a, ih]

/-- The message handler emits only `send` actions, never a close: no branch
of `ws-server.js`'s handler calls `ws.close` or `client.close`. -/
theorem handleMessage_no_close (clients : List Client) (me : Client)
    (inb : Inbound) (raw : String) (t : Nat) :
    Action.closeConn t ∉ (handleMessage clients me inb raw).2 := by
  cases inb with
  | notJson =>
    simp [handleMessage, rawForward, List.mem_map]
  | json m =>
    by_cases h1 : m.type = some "metric"
    · simp [handleMessage, h1]
    · by_cases h2 : m.type = some "hello"
      · simp [handleMessage, h1, h2]
      · by_cases h3 : m.type = some "chat"
        · simp [handleMessage, h1, h2, h3, List.mem_map]
        · simp [handleMessage, h1, h2, h3, rawForward, List.mem_map]

/-- The message handler never changes a connection's identity or open state:
only a `hello` touches the client set, and it only rewrites the
`sessionId`/`role` fields. -/
theorem handleMessage_preserves_open (clients : List Client) (me : Client)
    (inb : Inbound) (raw : String) :
    (handleMessage clients me inb raw).1.map (fun c => (c.cid, c.isOpen)) =
      clients.map (fun c => (c.cid, c.isOpen)) := by
  cases inb with
  | notJson => rfl
  | json m =>
    by_cases h1 : m.type = some "metric"
    · simp [handleMessage, h1]
    · by_cases h2 : m.type = some "hello"
      · have hstep : (handleMessage clients me (Inbound.json m) raw).1 =
            clients.map (fun c =>
              if c.cid = me.cid then
                { c with sessionId := jsOr m.sessionId, role := jsOr m.role }
              else c) := by
          simp [handleMessage, h1, h2]
        rw [hstep, List.map_map]
        refine map_eq_of_forall clients fun c => ?_
        by_cases hc : c.cid = me.cid <;> simp [hc]
      · by_cases h3 : m.type = some "chat"
        · simp [handleMessage, h1, h2, h3]
        · simp [handleMessage, h1, h2, h3, rawForward]

/-- For a bound sender (`ws.sessionId` a nonempty string `s`), not being
skipped by the session filter means: the receiver's binding is unset (falsy)
or equal to `s`. -/
theorem not_sessionSkip_of_bound {s : String} (hne : s ≠ "")
    (cSid : Option String) :
    (!(sessionSkip (some s) cSid)) =
      (!(truthy cSid) || decide (cSid = some s)) := by
  cases cSid with
  | none => simp [sessionSkip, truthy]
  | some t =>
    simp only [sessionSkip, truthy, decide_not]
    by_cases ht : t = ""
    · subst ht; simp
    · by_cases hts : t = s
      · subst hts; simp [hne]
      · simp [ht, hts, hne]

/-! ## C1 — Unbound connections -/

/-- C1 counterexample: a connection that never sent a `Hello` (no session
binding) sends non-Hello data; the relay does not reject it — it forwards
the data to another client (one bound to session "B") and closes nothing,
refuting "any non-Hello inbound message is rejected and the connection is
closed with ProtocolError; no message from an unbound connection is ever
forwarded". -/
theorem unbound_frame_forwarded_cex :
    (handleMessage [⟨0, none, none, true⟩, ⟨1, some "B", some "viewer", true⟩]
        ⟨0, none, none, true⟩ Inbound.notJson "frame").2 = [Action.send 1 "frame"] ∧
    ∀ t, Action.closeConn t ∉
      (handleMessage [⟨0, none, none, true⟩, ⟨1, some "B", some "viewer", true⟩]
        ⟨0, none, none, true⟩ Inbound.notJson "frame").2 :=
  ⟨rfl, fun t => handleMessage_no_close _ _ _ _ t⟩

/-- C1 (amended): the relay never rejects an unbound connection.  For a
sender with no (truthy) session binding, no inbound message ever produces a
close, and non-control data is forwarded to every other open connection
regardless of its session — the broadcast-to-everyone fallback. -/
theorem unbound_broadcast_fallback (clients : List Client) (me : Client)
    (inb : Inbound) (raw : String) (h : truthy me.sessionId = false) :
    (∀ t, Action.closeConn t ∉ (handleMessage clients me inb raw).2) ∧
    (handleMessage clients me Inbound.notJson raw).2 =
      (clients.filter (fun c => decide (c.cid ≠ me.cid) && c.isOpen)).map
        (fun c => Action.send c.cid raw) := by
  refine ⟨fun t => handleMessage_no_close clients me inb raw t, ?_⟩
  show (rawForward clients me raw).2 = _
  unfold rawForward
  refine congrArg (List.map _) (filter_eq_of_forall clients fun c => ?_)
  simp [sessionSkip, h]

/-- Witness for `unbound_broadcast_fallback` at a concrete input. -/
theorem unbound_broadcast_fallback_witness :
    truthy (Client.mk 0 none none true).sessionId = false ∧
    ((∀ t, Action.closeConn t ∉
        (handleMessage [Client.mk 0 none none true, Client.mk 1 (some "B") (some "viewer") true]
          (Client.mk 0 none none true) Inbound.notJson "d").2) ∧
      (handleMessage [Client.mk 0 none none true, Client.mk 1 (some "B") (some "viewer") true]
          (Client.mk 0 none none true) Inbound.notJson "d").2 =
        ([Client.mk 0 none none true,
            Client.mk 1 (some "B") (some "viewer") true].filter
            (fun c => decide (c.cid ≠ (Client.mk 0 none none true).cid) && c.isOpen)).map
          (fun c => Action.send c.cid "d")) :=
  ⟨by decide,
    unbound_broadcast_fallback
      [Client.mk 0 none none true, Client.mk 1 (some "B") (some "viewer") true]
      (Client.mk 0 none none true) Inbound.notJson "d" (by decide)⟩

/-! ## C2 — Replay guard -/

/-- C2 counterexample: two submissions of the same encrypted frame (same
counter, a JSON body with no `type` field) from the same bound sender are
both forwarded to the session peer — the second is not rejected as a
duplicate, refuting the sliding-window anti-replay claim. -/
theorem replay_duplicate_forwarded_cex :
    (handleMessage [⟨0, some "S", some "host", true⟩, ⟨1, some "S", some "viewer", true⟩]
        ⟨0, some "S", some "host", true⟩ (Inbound.json ⟨none, none, none, none⟩)
        "frame-counter-2").2 = [Action.send 1 "frame-counter-2"] ∧
    (handleMessage
        (handleMessage [⟨0, some "S", some "host", true⟩, ⟨1, some "S", some "viewer", true⟩]
          ⟨0, some "S", some "host", true⟩ (Inbound.json ⟨none, none, none, none⟩)
          "frame-counter-2").1
        ⟨0, some "S", some "host", true⟩ (Inbound.json ⟨none, none, none, none⟩)
        "frame-counter-2").2 = [Action.send 1 "frame-counter-2"] :=
  ⟨rfl, rfl⟩

/-- C2 (amended): the relay keeps no replay state at all.  Forwarding an
encrypted frame (JSON with no `type`) leaves the client set unchanged, and
resubmitting the identical frame yields the identical result — a duplicate
counter is forwarded again rather than rejected. -/
theorem replay_no_guard (clients : List Client) (me : Client) (m : JsonMsg)
    (raw : String) (h : m.type = none) :
    (handleMessage clients me (Inbound.json m) raw).1 = clients ∧
    handleMessage (handleMessage clients me (Inbound.json m) raw).1 me
        (Inbound.json m) raw =
      handleMessage clients me (Inbound.json m) raw := by
  have hstep : handleMessage clients me (Inbound.json m) raw =
      rawForward clients me raw := by
    simp [handleMessage, h]
  refine ⟨by rw [hstep]; rfl, ?_⟩
  rw [hstep]
  show handleMessage clients me (Inbound.json m) raw = rawForward clients me raw
  exact hstep

/-- Witness for `replay_no_guard` at a concrete input. -/
theorem replay_no_guard_witness :
    (JsonMsg.mk none none none none).type = none ∧
    ((handleMessage [Client.mk 0 (some "S") (some "host") true]
        (Client.mk 0 (some "S") (some "host") true)
        (Inbound.json (JsonMsg.mk none none none none)) "f2").1 =
      [Client.mk 0 (some "S") (some "host") true] ∧
    handleMessage
        (handleMessage [Client.mk 0 (some "S") (some "host") true]
          (Client.mk 0 (some "S") (some "host") true)
          (Inbound.json (JsonMsg.mk none none none none)) "f2").1
        (Client.mk 0 (some "S") (some "host") true)
        (Inbound.json (JsonMsg.mk none none none none)) "f2" =
      handleMessage [Client.mk 0 (some "S") (some "host") true]
        (Client.mk 0 (some "S") (some "host") true)
        (Inbound.json (JsonMsg.mk none none none none)) "f2") :=
  ⟨rfl,
    replay_no_guard [Client.mk 0 (some "S") (some "host") true]
      (Client.mk 0 (some "S") (some "host") true)
      (JsonMsg.mk none none none none) "f2" rfl⟩

/-! ## C3 — Frame fan-out recipients -/

/-- C3 counterexample: a sender bound to session "S" forwards a frame; the
only recipient is the connection with **no** session binding (cid 1), while
there is no other "S"-bound member — refuting "no connection outside that
session (including connections with no session binding) receives it". -/
theorem fanout_unbound_receiver_cex :
    (handleMessage
        [⟨0, some "S", some "host", true⟩, ⟨1, none, none, true⟩,
          ⟨2, some "T", none, true⟩]
        ⟨0, some "S", some "host", true⟩
        (Inbound.json ⟨none, none, none, none⟩) "frame").2
      = [Action.send 1 "frame"] := rfl

/-- C3 (amended): for a sender bound to a nonempty session `s`, the
raw-frame fan-out reaches exactly the *other open* connections whose
binding is unset (falsy) or equal to `s`; the sender never receives its own
frame.  Connections bound to a different session are excluded, but unbound
connections are included. -/
theorem fanout_session_or_unbound (clients : List Client) (me : Client)
    (raw s : String) (hs : me.sessionId = some s) (hne : s ≠ "") :
    ((handleMessage clients me Inbound.notJson raw).2 =
      (clients.filter (fun c => decide (c.cid ≠ me.cid) && c.isOpen &&
          (!(truthy c.sessionId) || decide (c.sessionId = some s)))).map
        (fun c => Action.send c.cid raw)) ∧
    ∀ p, Action.send me.cid p ∉ (handleMessage clients me Inbound.notJson raw).2 := by
  constructor
  · show (rawForward clients me raw).2 = _
    unfold rawForward
    refine congrArg (List.map _) (filter_eq_of_forall clients fun c => ?_)
    rw [hs, not_sessionSkip_of_bound hne]
  · intro p hp
    have hp2 : Action.send me.cid p ∈ (rawForward clients me raw).2 := hp
    simp only [rawForward, List.mem_map, List.mem_filter] at hp2
    obtain ⟨c, ⟨hcmem, hcond⟩, heq⟩ := hp2
    injection heq with hcid hpay
    simp only [Bool.and_eq_true, decide_eq_true_eq] at hcond
    exact hcond.1.1 hcid

/-- Witness for `fanout_session_or_unbound` at a concrete input. -/
theorem fanout_session_or_unbound_witness :
    (Client.mk 0 (some "S") (some "host") true).sessionId = some "S" ∧ "S" ≠ "" ∧
    (((handleMessage
        [Client.mk 0 (some "S") (some "host") true, Client.mk 1 none none true,
          Client.mk 2 (some "T") none true, Client.mk 3 (some "S") none true]
        (Client.mk 0 (some "S") (some "host") true) Inbound.notJson "f").2 =
      ([Client.mk 0 (some "S") (some "host") true, Client.mk 1 none none true,
          Client.mk 2 (some "T") none true, Client.mk 3 (some "S") none true].filter
          (fun c => decide (c.cid ≠ (Client.mk 0 (some "S") (some "host") true).cid) &&
            c.isOpen && (!(truthy c.sessionId) || decide (c.sessionId = some "S")))).map
        (fun c => Action.send c.cid "f")) ∧
    ∀ p, Action.send (Client.mk 0 (some "S") (some "host") true).cid p ∉
      (handleMessage
        [Client.mk 0 (some "S") (some "host") true, Client.mk 1 none none true,
          Client.mk 2 (some "T") none true, Client.mk 3 (some "S") none true]
        (Client.mk 0 (some "S") (some "host") true) Inbound.notJson "f").2) :=
  ⟨rfl, by decide,
    fanout_session_or_unbound
      [Client.mk 0 (some "S") (some "host") true, Client.mk 1 none none true,
        Client.mk 2 (some "T") none true, Client.mk 3 (some "S") none true]
      (Client.mk 0 (some "S") (some "host") true) "f" "S" rfl (by decide)⟩

/-! ## C4 — create-or-get idempotence -/

/-- C4: `POST /api/session` is idempotent.  If the session has no key, the
first call generates exactly one (the generator value `g1`) and stores it;
a second call — with the generator ready to produce a different `g2` —
returns the first call's response unchanged (same key, status 200) and
leaves the directory exactly as the first call left it, so at most one
generation ever occurs per session.  `computeIfAbsent` on the
`ConcurrentHashMap` makes this one atomic step, so concurrent first calls
serialize into exactly this sequence. -/
theorem create_or_get_idempotent (keys : KeyDir) (s : String)
    (g1 g2 : KeyBytes) (hs : s ≠ "") :
    (findKey s keys = none →
      handleCreateSession HttpMethod.postM (some s) keys g1 =
        (⟨200, some g1⟩, (s, g1) :: keys)) ∧
    handleCreateSession HttpMethod.postM (some s)
        (handleCreateSession HttpMethod.postM (some s) keys g1).2 g2 =
      handleCreateSession HttpMethod.postM (some s) keys g1 := by
  constructor
  · intro h0
    simp [handleCreateSession, hs, h0]
  · cases hk : findKey s keys with
    | some k => simp [handleCreateSession, hs, hk]
    | none => simp [handleCreateSession, hs, hk, findKey]

/-- Witness for `create_or_get_idempotent` at a concrete input. -/
theorem create_or_get_idempotent_witness :
    "demo" ≠ "" ∧
    ((findKey "demo" [] = none →
      handleCreateSession HttpMethod.postM (some "demo") [] [1] =
        (⟨200, some [1]⟩, [("demo", [1])])) ∧
    handleCreateSession HttpMethod.postM (some "demo")
        (handleCreateSession HttpMethod.postM (some "demo") [] [1]).2 [2] =
      handleCreateSession HttpMethod.postM (some "demo") [] [1]) :=
  ⟨by decide, create_or_get_idempotent [] "demo" [1] [2] (by decide)⟩

/-! ## C5 — rotation -/

/-- C5 counterexample: a `{"type":"rotate","reason":"manual"}` control
message from a host bound to session "S" is **fanned out to the session
peer** as an opaque raw frame (the relay does not recognize `rotate`), and
the key server registers no rotate endpoint — refuting "forwarded to the
Key Directory's Rotate operation rather than being fanned out to peers". -/
theorem rotate_fanned_out_cex :
    (handleMessage
        [⟨0, some "S", some "host", true⟩, ⟨1, some "S", some "viewer", true⟩]
        ⟨0, some "S", some "host", true⟩
        (Inbound.json ⟨some "rotate", none, none, none⟩)
        "\x7b\"type\":\"rotate\",\"reason\":\"manual\"\x7d").2
      = [Action.send 1 "\x7b\"type\":\"rotate\",\"reason\":\"manual\"\x7d"] ∧
    "/api/rotate" ∉ registeredContexts :=
  ⟨rfl, by decide⟩

/-- C5 (amended): rotation is not implemented.  The relay treats any
message with `type = "rotate"` exactly like an unrecognized raw frame —
falling through to the session fan-out — and the key server's registered
HTTP contexts contain no rotate endpoint (and the server keeps no epochs at
all). -/
theorem rotate_unrecognized (clients : List Client) (me : Client)
    (m : JsonMsg) (raw : String) (h : m.type = some "rotate") :
    handleMessage clients me (Inbound.json m) raw = rawForward clients me raw ∧
    "/api/rotate" ∉ registeredContexts := by
  refine ⟨?_, by decide⟩
  simp [handleMessage, h]

/-- Witness for `rotate_unrecognized` at a concrete input. -/
theorem rotate_unrecognized_witness :
    (JsonMsg.mk (some "rotate") none none none).type = some "rotate" ∧
    (handleMessage [Client.mk 0 (some "S") (some "host") true]
        (Client.mk 0 (some "S") (some "host") true)
        (Inbound.json (JsonMsg.mk (some "rotate") none none none)) "r" =
      rawForward [Client.mk 0 (some "S") (some "host") true]
        (Client.mk 0 (some "S") (some "host") true) "r" ∧
    "/api/rotate" ∉ registeredContexts) :=
  ⟨rfl,
    rotate_unrecognized [Client.mk 0 (some "S") (some "host") true]
      (Client.mk 0 (some "S") (some "host") true)
      (JsonMsg.mk (some "rotate") none none none) "r" rfl⟩

/-! ## C6 — join is a pure lookup -/

/-- C6: `POST /api/join` is a pure lookup: it never changes the key
directory; when the session has no key it answers 404 with no key in the
body, and when a key exists it answers 200 with exactly that key. -/
theorem join_pure_lookup (keys : KeyDir) (s : String) (hs : s ≠ "") :
    (handleJoinSession HttpMethod.postM (some s) keys).2 = keys ∧
    (findKey s keys = none →
      (handleJoinSession HttpMethod.postM (some s) keys).1 = ⟨404, none⟩) ∧
    ∀ k, findKey s keys = some k →
      (handleJoinSession HttpMethod.postM (some s) keys).1 = ⟨200, some k⟩ := by
  refine ⟨?_, fun h0 => ?_, fun k hk => ?_⟩
  · cases hk : findKey s keys with
    | none => simp [handleJoinSession, hs, hk]
    | some k => simp [handleJoinSession, hs, hk]
  · simp [handleJoinSession, hs, h0]
  · simp [handleJoinSession, hs, hk]

/-- Witness for `join_pure_lookup` at a concrete input (unknown session →
404, directory untouched). -/
theorem join_pure_lookup_witness :
    "demo" ≠ "" ∧
    ((handleJoinSession HttpMethod.postM (some "demo") []).2 = [] ∧
    (findKey "demo" [] = none →
      (handleJoinSession HttpMethod.postM (some "demo") []).1 = ⟨404, none⟩) ∧
    ∀ k, findKey "demo" [] = some k →
      (handleJoinSession HttpMethod.postM (some "demo") []).1 = ⟨200, some k⟩) :=
  ⟨by decide, join_pure_lookup [] "demo" (by decide)⟩

/-! ## C7 — session binding mutability -/

/-- C7 counterexample: a connection binds to session "A" with a first valid
Hello, then a second Hello re-binds it to "B" with a different role — the
recorded `sessionId`/`role` are not immutable after the first Hello. -/
theorem second_hello_rebinds_cex :
    (handleMessage [⟨0, none, none, true⟩] ⟨0, none, none, true⟩
        (Inbound.json ⟨some "hello", some "A", some "host", none⟩) "h1").1
      = [⟨0, some "A", some "host", true⟩] ∧
    (handleMessage
        (handleMessage [⟨0, none, none, true⟩] ⟨0, none, none, true⟩
          (Inbound.json ⟨some "hello", some "A", some "host", none⟩) "h1").1
        ⟨0, none, none, true⟩
        (Inbound.json ⟨some "hello", some "B", some "viewer", none⟩) "h2").1
      = [⟨0, some "B", some "viewer", true⟩] :=
  ⟨rfl, rfl⟩

/-- C7 (amended): every Hello (re)binds: after two Hello messages from the
same connection, the client set is exactly what the second Hello alone
would have produced — the latest Hello wins, and earlier bindings leave no
trace. -/
theorem hello_latest_wins (clients : List Client) (me : Client)
    (m1 m2 : JsonMsg) (raw1 raw2 : String)
    (h1 : m1.type = some "hello") (h2 : m2.type = some "hello") :
    (handleMessage (handleMessage clients me (Inbound.json m1) raw1).1 me
        (Inbound.json m2) raw2).1 =
      (handleMessage clients me (Inbound.json m2) raw2).1 := by
  have hstep : ∀ (cs : List Client) (m : JsonMsg) (rw : String),
      m.type = some "hello" →
      (handleMessage cs me (Inbound.json m) rw).1 =
        cs.map (fun c =>
          if c.cid = me.cid then
            { c with sessionId := jsOr m.sessionId, role := jsOr m.role }
          else c) := by
    intro cs m rw hm
    simp [handleMessage, hm]
  rw [hstep clients m1 raw1 h1]
  rw [hstep _ m2 raw2 h2]
  rw [hstep clients m2 raw2 h2]
  rw [List.map_map]
  refine map_eq_of_forall clients fun c => ?_
  by_cases hc : c.cid = me.cid <;> simp [Function.comp, hc]

/-- Witness for `hello_latest_wins` at a concrete input. -/
theorem hello_latest_wins_witness :
    (JsonMsg.mk (some "hello") (some "A") (some "host") none).type = some "hello" ∧
    (JsonMsg.mk (some "hello") (some "B") (some "viewer") none).type = some "hello" ∧
    (handleMessage
        (handleMessage [Client.mk 0 none none true] (Client.mk 0 none none true)
          (Inbound.json (JsonMsg.mk (some "hello") (some "A") (some "host") none)) "h1").1
        (Client.mk 0 none none true)
        (Inbound.json (JsonMsg.mk (some "hello") (some "B") (some "viewer") none)) "h2").1 =
      (handleMessage [Client.mk 0 none none true] (Client.mk 0 none none true)
        (Inbound.json (JsonMsg.mk (some "hello") (some "B") (some "viewer") none)) "h2").1 :=
  ⟨rfl, rfl,
    hello_latest_wins [Client.mk 0 none none true] (Client.mk 0 none none true)
      (JsonMsg.mk (some "hello") (some "A") (some "host") none)
      (JsonMsg.mk (some "hello") (some "B") (some "viewer") none) "h1" "h2" rfl rfl⟩

/-! ## C8 — metric / pong -/

/-- C8: a `metric` control message produces exactly one action — a `pong`
sent synchronously to the sending connection — and leaves the client set
untouched; in particular nothing is broadcast to any other client. -/
theorem metric_pong_only (clients : List Client) (me : Client) (m : JsonMsg)
    (raw : String) (h : m.type = some "metric") :
    handleMessage clients me (Inbound.json m) raw =
      (clients, [Action.send me.cid pongText]) := by
  simp [handleMessage, h]

/-- Witness for `metric_pong_only` at a concrete input. -/
theorem metric_pong_only_witness :
    (JsonMsg.mk (some "metric") none none none).type = some "metric" ∧
    handleMessage
        [Client.mk 0 (some "S") (some "host") true, Client.mk 1 (some "S") none true]
        (Client.mk 0 (some "S") (some "host") true)
        (Inbound.json (JsonMsg.mk (some "metric") none none none)) "m" =
      ([Client.mk 0 (some "S") (some "host") true, Client.mk 1 (some "S") none true],
        [Action.send 0 pongText]) :=
  ⟨rfl,
    metric_pong_only
      [Client.mk 0 (some "S") (some "host") true, Client.mk 1 (some "S") none true]
      (Client.mk 0 (some "S") (some "host") true)
      (JsonMsg.mk (some "metric") none none none) "m" rfl⟩

/-! ## C9 — plaintext chat fan-out -/

/-- C9: a `chat` control message from an open connection bound to nonempty
session `s` is delivered to exactly the open connections whose binding is
`s` or unset (falsy) — **including the sending connection itself** — and
the client set is unchanged. -/
theorem chat_includes_sender (clients : List Client) (me : Client)
    (m : JsonMsg) (raw s : String) (hm : m.type = some "chat")
    (hs : me.sessionId = some s) (hne : s ≠ "") (hmem : me ∈ clients)
    (hopen : me.isOpen = true) :
    (handleMessage clients me (Inbound.json m) raw).1 = clients ∧
    Action.send me.cid raw ∈ (handleMessage clients me (Inbound.json m) raw).2 ∧
    (handleMessage clients me (Inbound.json m) raw).2 =
      (clients.filter (fun c => c.isOpen &&
          (!(truthy c.sessionId) || decide (c.sessionId = some s)))).map
        (fun c => Action.send c.cid raw) := by
  have hstep : handleMessage clients me (Inbound.json m) raw =
      (clients,
        (clients.filter (fun c =>
            c.isOpen && !(sessionSkip me.sessionId c.sessionId))).map
          (fun c => Action.send c.cid raw)) := by
    simp [handleMessage, hm]
  refine ⟨by rw [hstep], ?_, ?_⟩
  · rw [hstep]
    refine List.mem_map.2 ⟨me, List.mem_filter.2 ⟨hmem, ?_⟩, rfl⟩
    rw [hs]
    simp [sessionSkip, truthy, hopen, hne]
  · rw [hstep]
    refine congrArg (List.map _) (filter_eq_of_forall clients fun c => ?_)
    rw [hs, not_sessionSkip_of_bound hne]

/-- Witness for `chat_includes_sender` at a concrete input: sender 0 and
same-session member 1 and unbound member 2 receive; member 3 (other
session) does not. -/
theorem chat_includes_sender_witness :
    (JsonMsg.mk (some "chat") none none (some "hi")).type = some "chat" ∧
    (Client.mk 0 (some "S") (some "host") true).sessionId = some "S" ∧
    "S" ≠ "" ∧
    Client.mk 0 (some "S") (some "host") true ∈
      [Client.mk 0 (some "S") (some "host") true, Client.mk 1 (some "S") none true,
        Client.mk 2 none none true, Client.mk 3 (some "T") none true] ∧
    (Client.mk 0 (some "S") (some "host") true).isOpen = true ∧
    ((handleMessage
        [Client.mk 0 (some "S") (some "host") true, Client.mk 1 (some "S") none true,
          Client.mk 2 none none true, Client.mk 3 (some "T") none true]
        (Client.mk 0 (some "S") (some "host") true)
        (Inbound.json (JsonMsg.mk (some "chat") none none (some "hi"))) "cr").1 =
      [Client.mk 0 (some "S") (some "host") true, Client.mk 1 (some "S") none true,
        Client.mk 2 none none true, Client.mk 3 (some "T") none true] ∧
    Action.send (Client.mk 0 (some "S") (some "host") true).cid "cr" ∈
      (handleMessage
        [Client.mk 0 (some "S") (some "host") true, Client.mk 1 (some "S") none true,
          Client.mk 2 none none true, Client.mk 3 (some "T") none true]
        (Client.mk 0 (some "S") (some "host") true)
        (Inbound.json (JsonMsg.mk (some "chat") none none (some "hi"))) "cr").2 ∧
    (handleMessage
        [Client.mk 0 (some "S") (some "host") true, Client.mk 1 (some "S") none true,
          Client.mk 2 none none true, Client.mk 3 (some "T") none true]
        (Client.mk 0 (some "S") (some "host") true)
        (Inbound.json (JsonMsg.mk (some "chat") none none (some "hi"))) "cr").2 =
      ([Client.mk 0 (some "S") (some "host") true, Client.mk 1 (some "S") none true,
          Client.mk 2 none none true, Client.mk 3 (some "T") none true].filter
          (fun c => c.isOpen &&
            (!(truthy c.sessionId) || decide (c.sessionId = some "S")))).map
        (fun c => Action.send c.cid "cr")) :=
  ⟨rfl, rfl, by decide, by decide, rfl,
    chat_includes_sender
      [Client.mk 0 (some "S") (some "host") true, Client.mk 1 (some "S") none true,
        Client.mk 2 none none true, Client.mk 3 (some "T") none true]
      (Client.mk 0 (some "S") (some "host") true)
      (JsonMsg.mk (some "chat") none none (some "hi")) "cr" "S"
      rfl rfl (by decide) (by decide) rfl⟩

/-! ## C10 — no close on inbound data; raw forwarding -/

/-- C10: the relay never closes a connection in response to inbound data —
no branch of the handler emits a close, and every connection's identity and
open state survive any message.  Any JSON whose `type` is not one of
`metric`/`hello`/`chat` is handled exactly like unparseable data: it falls
through to the raw-forward loop, which delivers the data verbatim to each
other open connection passing the session filter (such as `c`), and every
emitted send carries the raw payload to a target other than the sender. -/
theorem relay_forwards_and_never_closes (clients : List Client) (me c : Client)
    (inb : Inbound) (raw : String) (hc : c ∈ clients) (hcid : c.cid ≠ me.cid)
    (hopen : c.isOpen = true)
    (hcompat : sessionSkip me.sessionId c.sessionId = false) :
    (∀ t, Action.closeConn t ∉ (handleMessage clients me inb raw).2) ∧
    ((handleMessage clients me inb raw).1.map (fun x => (x.cid, x.isOpen)) =
      clients.map (fun x => (x.cid, x.isOpen))) ∧
    (∀ m : JsonMsg, m.type ≠ some "metric" → m.type ≠ some "hello" →
      m.type ≠ some "chat" →
      handleMessage clients me (Inbound.json m) raw =
        handleMessage clients me Inbound.notJson raw) ∧
    Action.send c.cid raw ∈ (handleMessage clients me Inbound.notJson raw).2 ∧
    (∀ t p, Action.send t p ∈ (handleMessage clients me Inbound.notJson raw).2 →
      p = raw ∧ t ≠ me.cid) := by
  refine ⟨fun t => handleMessage_no_close clients me inb raw t,
    handleMessage_preserves_open clients me inb raw,
    fun m hm1 hm2 hm3 => by simp [handleMessage, hm1, hm2, hm3], ?_, ?_⟩
  · show Action.send c.cid raw ∈ (rawForward clients me raw).2
    refine List.mem_map.2 ⟨c, List.mem_filter.2 ⟨hc, ?_⟩, rfl⟩
    simp [hcid, hopen, hcompat]
  · intro t p hp
    have hp2 : Action.send t p ∈ (rawForward clients me raw).2 := hp
    simp only [rawForward, List.mem_map, List.mem_filter] at hp2
    obtain ⟨x, ⟨hxmem, hxcond⟩, heq⟩ := hp2
    injection heq with hx1 hx2
    simp only [Bool.and_eq_true, decide_eq_true_eq] at hxcond
    exact ⟨hx2.symm, hx1 ▸ hxcond.1.1⟩

/-- Witness for `relay_forwards_and_never_closes` at a concrete input. -/
theorem relay_forwards_and_never_closes_witness :
    Client.mk 1 (some "S") (some "viewer") true ∈
      [Client.mk 0 (some "S") (some "host") true,
        Client.mk 1 (some "S") (some "viewer") true] ∧
    (Client.mk 1 (some "S") (some "viewer") true).cid ≠
      (Client.mk 0 (some "S") (some "host") true).cid ∧
    (Client.mk 1 (some "S") (some "viewer") true).isOpen = true ∧
    sessionSkip (Client.mk 0 (some "S") (some "host") true).sessionId
      (Client.mk 1 (some "S") (some "viewer") true).sessionId = false ∧
    ((∀ t, Action.closeConn t ∉
        (handleMessage
          [Client.mk 0 (some "S") (some "host") true,
            Client.mk 1 (some "S") (some "viewer") true]
          (Client.mk 0 (some "S") (some "host") true) Inbound.notJson "raw").2) ∧
    ((handleMessage
        [Client.mk 0 (some "S") (some "host") true,
          Client.mk 1 (some "S") (some "viewer") true]
        (Client.mk 0 (some "S") (some "host") true) Inbound.notJson "raw").1.map
        (fun x => (x.cid, x.isOpen)) =
      [Client.mk 0 (some "S") (some "host") true,
        Client.mk 1 (some "S") (some "viewer") true].map (fun x => (x.cid, x.isOpen))) ∧
    (∀ m : JsonMsg, m.type ≠ some "metric" → m.type ≠ some "hello" →
      m.type ≠ some "chat" →
      handleMessage
          [Client.mk 0 (some "S") (some "host") true,
            Client.mk 1 (some "S") (some "viewer") true]
          (Client.mk 0 (some "S") (some "host") true) (Inbound.json m) "raw" =
        handleMessage
          [Client.mk 0 (some "S") (some "host") true,
            Client.mk 1 (some "S") (some "viewer") true]
          (Client.mk 0 (some "S") (some "host") true) Inbound.notJson "raw") ∧
    Action.send (Client.mk 1 (some "S") (some "viewer") true).cid "raw" ∈
      (handleMessage
        [Client.mk 0 (some "S") (some "host") true,
          Client.mk 1 (some "S") (some "viewer") true]
        (Client.mk 0 (some "S") (some "host") true) Inbound.notJson "raw").2 ∧
    (∀ t p, Action.send t p ∈
        (handleMessage
          [Client.mk 0 (some "S") (some "host") true,
            Client.mk 1 (some "S") (some "viewer") true]
          (Client.mk 0 (some "S") (some "host") true) Inbound.notJson "raw").2 →
      p = "raw" ∧ t ≠ (Client.mk 0 (some "S") (some "host") true).cid)) :=
  ⟨by decide, by decide, rfl, by decide,
    relay_forwards_and_never_closes
      [Client.mk 0 (some "S") (some "host") true,
        Client.mk 1 (some "S") (some "viewer") true]
      (Client.mk 0 (some "S") (some "host") true)
      (Client.mk 1 (some "S") (some "viewer") true)
      Inbound.notJson "raw" (by decide) (by decide) rfl (by decide)⟩

end SecureStreaming
